import Mathlib

/-
Shallow embedding of `src/index.js` of serverless-s3-local (the
`ServerlessS3Local` plugin class): configuration merging in `startHandler`,
bucket resolution in `buckets` (with the additional-stacks merge), bucket
creation in `createBuckets`, and teardown in `endHandler`.

JavaScript objects with string keys are modelled as association lists
(`List (String × _)`), which preserves the insertion-ordered iteration of
`Object.keys`.  Optional / possibly-absent JS fields are `Option` values
(`none` models an absent key or `null`/`undefined`).  JS truthiness of the
defaulting idioms `x || d` is modelled by the `jsOr*` helpers: `0`, `""`,
`false`, `null` and `undefined` are falsy.
-/

set_option autoImplicit false

namespace S3Local

/-- JS model of `Properties` of a CloudFormation resource: only the
`BucketName` key matters to the plugin.  `none` models an absent key;
literal names are strings (the empty string is falsy in JS). -/
structure Props where
  BucketName : Option String
deriving DecidableEq

/-- JS model of one resource entry: `resType` models the JSON key `Type`
(a reserved word in Lean), `Properties` may be absent. -/
structure Resource where
  resType : String
  Properties : Option Props
deriving DecidableEq

/-- A JS object mapping logical resource names to resources, in insertion
order (the order `Object.keys` iterates). -/
abbrev ResourceMap := List (String × Resource)

/-- One additional stack: its `Resources` object may be absent. -/
structure Stack where
  Resources : Option ResourceMap
deriving DecidableEq

/-- A partial configuration object: the run options passed on the command
line, or the `custom.s3` block of the service file.  `none` models a key
that the object does not carry. -/
structure S3Config where
  port : Option Nat
  host : Option String
  directory : Option String
  cors : Option Bool
  noStart : Option Bool
  buckets : Option (List String)
deriving DecidableEq

/-- The empty configuration object, modelling the JS literal with no keys. -/
def S3Config.empty : S3Config :=
  { port := none, host := none, directory := none, cors := none,
    noStart := none, buckets := none }

/-- The `custom` block of the service: `custom.s3` and
`custom.additionalStacks` (an object of stacks, iterated in key order). -/
structure Custom where
  s3 : Option S3Config
  additionalStacks : Option (List (String × Stack))
deriving DecidableEq

/-- The framework-supplied service: `service.resources.Resources`
(collapsed to one `Option`: `none` when `resources` or `.Resources` is
absent), `service.plugins`, and `service.custom`. -/
structure Service where
  resources : Option ResourceMap
  plugins : Option (List String)
  custom : Custom
deriving DecidableEq

/-- JS `v || d` for a numeric field: `0`, `null` and `undefined` are falsy. -/
def jsOrNat (v : Option Nat) (d : Nat) : Nat :=
  match v with
  | some n => if n = 0 then d else n
  | none => d

/-- JS `v || d` for a string field: `""`, `null` and `undefined` are falsy. -/
def jsOrStr (v : Option String) (d : String) : String :=
  match v with
  | some s => if s = "" then d else s
  | none => d

/-- JS truthiness of a possibly-absent boolean field. -/
def jsTruthy (v : Option Bool) : Bool := v.getD false

/-- One field of `Object.assign`: the newer object's value wins when its
key is present, otherwise the older object's value survives. -/
def overlay {α : Type} (older newer : Option α) : Option α :=
  match newer with
  | some v => some v
  | none => older

/-- Line 61, `Object.assign` of the run options `o` and the service config
`c`, in that argument order: `c` is the later source, so on a key collision
the value of `c` (the declarative `custom.s3` block) survives. -/
def mergedOptions (o c : S3Config) : S3Config :=
  { port := overlay o.port c.port,
    host := overlay o.host c.host,
    directory := overlay o.directory c.directory,
    cors := overlay o.cors c.cors,
    noStart := overlay o.noStart c.noStart,
    buckets := overlay o.buckets c.buckets }

/-- Lines 60-61: `(service.custom && service.custom.s3) || ` the empty
object, merged under the run options. -/
def mergedConfigOf (o : S3Config) (s : Service) : S3Config :=
  mergedOptions o ((s.custom.s3).getD S3Config.empty)

/-- Lines 160-164 of `buckets`, the body of the `.map` combined with the
truthy `.filter(n => n)`: a resource yields `some name` exactly when its
`Type` is the bucket type, `Properties` is present, and `BucketName` is a
truthy (non-empty) literal; every other entry yields JS `null`, modelled
as `none`. -/
def bucketNameOf (r : Resource) : Option String :=
  if r.resType = "AWS::S3::Bucket" then
    match r.Properties with
    | some props =>
      match props.BucketName with
      | some name => if name = "" then none else some name
      | none => none
    | none => none
  else none

/-- First-match lookup in a JS object modelled as an association list. -/
def lookupKey (m : ResourceMap) (k : String) : Option Resource :=
  match m with
  | [] => none
  | (k', v) :: rest => if k' = k then some v else lookupKey rest k

/-- JS property assignment `m[k] = v`: replaces the value in place when
the key exists (keeping its position in iteration order), otherwise
appends the new key at the end. -/
def setKey (m : ResourceMap) (k : String) (v : Resource) : ResourceMap :=
  match m with
  | [] => [(k, v)]
  | (k', v') :: rest => if k' = k then (k, v) :: rest else (k', v') :: setKey rest k v

/-- Lines 148-156: fold one additional stack into the resource map,
assigning every entry whose `Type` is the bucket type into the map under
its key; entries of other types are skipped, and a stack without a
`Resources` object contributes nothing. -/
def mergeStack (res : ResourceMap) (stack : Stack) : ResourceMap :=
  match stack.Resources with
  | none => res
  | some sres =>
    sres.foldl
      (fun acc kv => if kv.2.resType = "AWS::S3::Bucket" then setKey acc kv.1 kv.2 else acc)
      res

/-- Lines 121-128, `getAdditionalStacks`: the values of
`service.custom.additionalStacks` (defaulting to the empty object), in
key iteration order. -/
def getAdditionalStacks (s : Service) : List Stack :=
  ((s.custom.additionalStacks).getD []).map (fun kv => kv.2)

/-- Lines 130-136, `hasAdditionalStacksPlugin`: the plugins list exists
and contains the additional-stacks plugin name. -/
def hasAdditionalStacksPlugin (s : Service) : Bool :=
  match s.plugins with
  | some ps => ps.contains "serverless-plugin-additional-stacks"
  | none => false

/-- Lines 144-157: the resource map after the additional-stacks merge
(the map `buckets` iterates at line 158).  When the plugin is absent the
map is the primary one unchanged. -/
def mergedResources (s : Service) : ResourceMap :=
  let resources := (s.resources).getD []
  if hasAdditionalStacksPlugin s then
    (getAdditionalStacks s).foldl mergeStack resources
  else resources

/-- Lines 143-166, `buckets()`, including its side effect: the first
component is the returned name list, the second the service afterwards.
Because line 144 binds `resources` to the very object
`service.resources.Resources` (the trailing `|| ` empty-object only fires
when that object is absent), the assignments of line 152 mutate the
service's own map; the post-state therefore carries the merged map
whenever the service had a resources object, and is untouched otherwise. -/
def bucketsRun (s : Service) : List String × Service :=
  let merged := mergedResources s
  let names := merged.filterMap (fun kv => bucketNameOf kv.2)
  (names, { s with resources := (s.resources).map (fun _ => merged) })

/-- Line 64: the names from `buckets()` concatenated with the merged
options' `buckets` list (defaulting to empty). -/
def resolvedBucketList (o : S3Config) (s : Service) : List String :=
  (bucketsRun s).1 ++ ((mergedConfigOf o s).buckets).getD []

/-- Observable calls the handlers make on their external collaborators:
the filesystem (`ensureDir`), the emulator (`spawnServer`, `closeServer`)
and the storage client SDK (`constructClient`, `createBucket`).  Logging
calls are omitted as pure output. -/
inductive Event where
  | ensureDir (path : String)
  | spawnServer (port : Nat) (hostname : String) (cors : Bool) (directory : String)
  | constructClient (endpoint : String)
  | createBucket (endpoint : String) (name : String)
  | closeServer
deriving DecidableEq

/-- Settlement of the promise returned by `startHandler`. -/
inductive Outcome where
  | resolved
  | rejected (err : String)
deriving DecidableEq

/-- What the emulator's `run(callback)` reports for this spawn: an error,
or the bound host and port (the bound port may differ from the requested
one, e.g. when port 0 was requested). -/
inductive RunOutcome where
  | fails (err : String)
  | binds (host : String) (port : Nat)
deriving DecidableEq

/-- The environment of one `startHandler` invocation: the emulator's
startup report, the per-bucket settlement of `createBucket` (`none` is a
fulfilled call, `some err` a rejection), and the filesystem's
`realpathSync` canonicalisation. -/
structure Env where
  runResult : RunOutcome
  createResult : String → Option String
  realpath : String → String

/-- What `new S3rver(...)` is constructed with; `run` returns the server
object, retained by `startHandler` as `this.client`. -/
structure S3rverHandle where
  port : Nat
  hostname : String
  cors : Bool
  directory : String
deriving DecidableEq

/-- Result of one `startHandler` invocation, started from the constructor
state (`this.client = null`): the external calls it made in order, the
settlement of its promise, and the value of `this.client` afterwards. -/
structure StartResult where
  events : List Event
  outcome : Outcome
  client : Option S3rverHandle
deriving DecidableEq

/-- Line 111: the endpoint string the storage client is constructed with.
The hostname is the literal `localhost` in the source, independent of the
configured host. -/
def endpointFor (port : Nat) : String := "http://localhost:" ++ toString port

/-- Lines 105-119, `createBuckets(port, buckets)`: with an empty list it
returns immediately, constructing no client and issuing no calls; with a
non-empty list it constructs one client against `endpointFor port` and
issues one `createBucket` call per listed name, joined by `Promise.all`.
`Promise.all` rejects with the first rejection; first-in-time among
concurrent calls is modelled as first in list order. -/
def createBuckets (env : Env) (port : Nat) (bucketList : List String) :
    List Event × Outcome :=
  if bucketList.isEmpty then ([], Outcome.resolved)
  else
    let endpoint := endpointFor port
    let events :=
      Event.constructClient endpoint ::
        bucketList.map (fun b => Event.createBucket endpoint b)
    match bucketList.find? (fun b => (env.createResult b).isSome) with
    | some b => (events, Outcome.rejected ((env.createResult b).getD ""))
    | none => (events, Outcome.resolved)

/-- Lines 58-96, `startHandler()`, from the constructor state where
`this.client` is `null`.  The merged options are read; when their
`noStart` is truthy, bucket creation runs directly against the configured
port and no directory or server calls are made.  Otherwise the directory
is ensured and canonicalised and the emulator is spawned; `this.client`
is assigned the return of `run(...)` synchronously, before the callback
reports, so the handle is retained even when startup fails.  On a startup
error the promise rejects with it and no creation call is issued; on
success creation runs against the bound port. -/
def startHandler (env : Env) (runOptions : S3Config) (service : Service) :
    StartResult :=
  let options := mergedConfigOf runOptions service
  let bucketList := resolvedBucketList runOptions service
  let port := jsOrNat options.port 4569
  let hostname := jsOrStr options.host "localhost"
  let cors := jsTruthy options.cors
  if jsTruthy options.noStart then
    let created := createBuckets env port bucketList
    { events := created.1, outcome := created.2, client := none }
  else
    let dirPath := jsOrStr options.directory "./buckets"
    let directory := env.realpath dirPath
    let setup := [Event.ensureDir dirPath, Event.spawnServer port hostname cors directory]
    let handle : S3rverHandle :=
      { port := port, hostname := hostname, cors := cors, directory := directory }
    match env.runResult with
    | RunOutcome.fails err =>
      { events := setup, outcome := Outcome.rejected err, client := some handle }
    | RunOutcome.binds _ s3Port =>
      let created := createBuckets env s3Port bucketList
      { events := setup ++ created.1, outcome := created.2, client := some handle }

/-- Lines 98-103, `endHandler()`: the guard reads `this.options.noStart`,
the raw run options, not the merged configuration.  When that flag is not
truthy it calls `this.client.close()`; if `this.client` is `null` (as it
is after a start whose merged `noStart` was truthy), that dereference
throws a TypeError, modelled as the error result. -/
def endHandler (runOptions : S3Config) (client : Option S3rverHandle) :
    Except String (List Event) :=
  if jsTruthy runOptions.noStart then Except.ok []
  else
    match client with
    | some _ => Except.ok [Event.closeServer]
    | none => Except.error "TypeError: this.client is null"

/-- Modelled from the spec: the merge direction the spec asserts, explicit
run options overlaid ONTO the declarative service config, so that the run
options win on a key collision.  Stated only to compare against
`mergedOptions`, the merge the source performs. -/
def specMergedOptionsWin (o c : S3Config) : S3Config :=
  { port := overlay c.port o.port,
    host := overlay c.host o.host,
    directory := overlay c.directory o.directory,
    cors := overlay c.cors o.cors,
    noStart := overlay c.noStart o.noStart,
    buckets := overlay c.buckets o.buckets }

/-- Run options carrying only a port of 1. -/
def optsPortOne : S3Config := { S3Config.empty with port := some 1 }

/-- Service config block carrying only a port of 2. -/
def configPortTwo : S3Config := { S3Config.empty with port := some 2 }

/-- C1 counterexample: with run options port 1 and service config port 2,
the source's merge keeps the service config's port 2, not the run
options' port 1 claimed by the spec, so the merged configuration is not
the options-win overlay. -/
theorem C1_counterexample :
    (mergedOptions optsPortOne configPortTwo).port = some 2
    ∧ (specMergedOptionsWin optsPortOne configPortTwo).port = some 1
    ∧ mergedOptions optsPortOne configPortTwo
        ≠ specMergedOptionsWin optsPortOne configPortTwo := by
  decide

/-- C1 (amended): when start merges configuration, the declarative
service custom-s3 config overrides the explicit run options on every
colliding key (the service config wins), and a run-option value survives
only for keys the service config omits. -/
theorem C1_config_overrides_options (o c : S3Config) :
    (∀ a b, o.port = some a → c.port = some b → (mergedOptions o c).port = some b)
    ∧ (∀ a b, o.host = some a → c.host = some b → (mergedOptions o c).host = some b)
    ∧ (∀ a b, o.directory = some a → c.directory = some b →
        (mergedOptions o c).directory = some b)
    ∧ (∀ a b, o.cors = some a → c.cors = some b → (mergedOptions o c).cors = some b)
    ∧ (∀ a b, o.noStart = some a → c.noStart = some b →
        (mergedOptions o c).noStart = some b)
    ∧ (∀ a b, o.buckets = some a → c.buckets = some b →
        (mergedOptions o c).buckets = some b)
    ∧ (∀ a, o.port = some a → c.port = none → (mergedOptions o c).port = some a) := by
  refine ⟨?_, ?_, ?_, ?_, ?_, ?_, ?_⟩ <;> intros <;> simp_all [mergedOptions, overlay]

/-- C1 witness: the amended merge at the concrete colliding ports. -/
theorem C1_config_overrides_options_witness :
    (mergedOptions optsPortOne configPortTwo).port = some 2 :=
  (C1_config_overrides_options optsPortOne configPortTwo).1 1 2 rfl rfl

/-- Inversion of `bucketNameOf`: a resource that yields a name is of
bucket type, carries a `Properties` object whose `BucketName` is exactly
that name, and the name is non-empty. -/
theorem bucketNameOf_eq_some {r : Resource} {n : String}
    (h : bucketNameOf r = some n) :
    r.resType = "AWS::S3::Bucket" ∧ n ≠ ""
      ∧ ∃ props, r.Properties = some props ∧ props.BucketName = some n := by
  unfold bucketNameOf at h
  split at h
  next ht =>
    cases hp : r.Properties with
    | none => rw [hp] at h; exact absurd h (by simp)
    | some props =>
      simp only [hp] at h
      cases hbn : props.BucketName with
      | none => simp only [hbn] at h; exact absurd h (by simp)
      | some name =>
        simp only [hbn] at h
        split at h
        next => exact absurd h (by simp)
        next hne =>
          injection h with hh
          subst hh
          exact ⟨ht, hne, props, hp ▸ rfl, hbn⟩
  next => exact absurd h (by simp)

/-- The primary-template-only service used to state bucket resolution. -/
def plainService (rm : ResourceMap) : Service :=
  { resources := some rm, plugins := none,
    custom := { s3 := none, additionalStacks := none } }

/-- A bucket-type resource with the given literal name. -/
def bucketResource (n : String) : Resource :=
  { resType := "AWS::S3::Bucket", Properties := some { BucketName := some n } }

/-- C2: the resolved bucket list is exactly the names of the bucket-typed
entries that carry a non-empty literal BucketName, in mapping iteration
order, followed by the explicitly configured buckets in their given
order; every emitted name is non-empty and stems from such an entry; and
the concrete mapping with R1 a bucket named logs plus explicit extra
resolves to logs then extra. -/
theorem C2_bucket_resolution (rm : ResourceMap) (ex : List String) :
    resolvedBucketList { S3Config.empty with buckets := some ex } (plainService rm)
      = rm.filterMap (fun kv => bucketNameOf kv.2) ++ ex
    ∧ (∀ n ∈ rm.filterMap (fun kv => bucketNameOf kv.2),
        n ≠ "" ∧ ∃ k r, (k, r) ∈ rm ∧ r.resType = "AWS::S3::Bucket"
          ∧ ∃ props, r.Properties = some props ∧ props.BucketName = some n)
    ∧ resolvedBucketList { S3Config.empty with buckets := some ["extra"] }
        (plainService [("R1", bucketResource "logs")])
      = ["logs", "extra"] := by
  refine ⟨rfl, ?_, by decide⟩
  intro n hn
  rcases List.mem_filterMap.mp hn with ⟨⟨k, r⟩, hmem, heq⟩
  obtain ⟨ht, hne, props, hp, hbn⟩ := bucketNameOf_eq_some heq
  exact ⟨hne, k, r, hmem, ht, props, hp, hbn⟩

/-- C2 witness: the characterisation applied at the concrete one-bucket
mapping of the claim. -/
theorem C2_bucket_resolution_witness :
    resolvedBucketList { S3Config.empty with buckets := some ["extra"] }
      (plainService [("R1", bucketResource "logs")]) = ["logs", "extra"] :=
  (C2_bucket_resolution [("R1", bucketResource "logs")] ["extra"]).2.2

/-- Looking up a key right after assigning it yields the assigned value. -/
theorem lookupKey_setKey (m : ResourceMap) (k : String) (v : Resource) :
    lookupKey (setKey m k v) k = some v := by
  induction m with
  | nil => simp [setKey, lookupKey]
  | cons kv rest ih =>
    obtain ⟨k', v'⟩ := kv
    by_cases h : k' = k
    · simp [setKey, lookupKey, h]
    · simp [setKey, lookupKey, h, ih]

/-- Assigning the same key twice keeps only the later value. -/
theorem setKey_setKey (m : ResourceMap) (k : String) (v w : Resource) :
    setKey (setKey m k v) k w = setKey m k w := by
  induction m with
  | nil => simp [setKey]
  | cons kv rest ih =>
    obtain ⟨k', v'⟩ := kv
    by_cases h : k' = k
    · simp [setKey, h]
    · simp [setKey, h, ih]

/-- The assignment fold of `mergeStack` is the identity on a list with no
bucket-typed entries. -/
theorem foldl_assign_no_buckets (m : ResourceMap) (l : List (String × Resource))
    (h : ∀ kv ∈ l, kv.2.resType ≠ "AWS::S3::Bucket") :
    l.foldl
      (fun acc kv =>
        if kv.2.resType = "AWS::S3::Bucket" then setKey acc kv.1 kv.2 else acc) m
      = m := by
  induction l generalizing m with
  | nil => rfl
  | cons kv rest ih =>
    have hkv := h kv (List.mem_cons_self kv rest)
    rw [List.foldl_cons, if_neg hkv]
    exact ih m (fun x hx => h x (List.mem_cons_of_mem kv hx))

/-- Merging a stack none of whose entries is bucket-typed changes
nothing. -/
theorem mergeStack_no_buckets (m : ResourceMap) (stack : Stack)
    (h : ∀ kv ∈ (stack.Resources).getD [], kv.2.resType ≠ "AWS::S3::Bucket") :
    mergeStack m stack = m := by
  cases hs : stack.Resources with
  | none => simp [mergeStack, hs]
  | some sres =>
    rw [hs] at h
    simp only [Option.getD_some] at h
    unfold mergeStack
    rw [hs]
    exact foldl_assign_no_buckets m sres h

/-- A service whose primary template is `prm` and whose single additional
stack declares the single resource `r'` under key `k`. -/
def additionalStacksService (prm : ResourceMap) (sname k : String) (r' : Resource) :
    Service :=
  { resources := some prm,
    plugins := some ["serverless-plugin-additional-stacks"],
    custom := { s3 := none,
                additionalStacks := some [(sname, { Resources := some [(k, r')] })] } }

/-- C3: when the additional-stacks plugin is present and a secondary
stack declares a bucket-typed resource under the same key as a primary
entry, the secondary entry replaces the primary one, so the resolved
names are computed from the map with the secondary entry at that key;
and a stack with no bucket-typed entries is never merged. -/
theorem C3_secondary_stack_wins (rm : ResourceMap) (sname k : String) (r r' : Resource)
    (hb : r'.resType = "AWS::S3::Bucket") :
    mergedResources (additionalStacksService (setKey rm k r) sname k r')
      = setKey rm k r'
    ∧ (bucketsRun (additionalStacksService (setKey rm k r) sname k r')).1
      = (setKey rm k r').filterMap (fun kv => bucketNameOf kv.2)
    ∧ lookupKey (mergedResources (additionalStacksService (setKey rm k r) sname k r')) k
      = some r'
    ∧ ∀ (m : ResourceMap) (stack : Stack),
        (∀ kv ∈ (stack.Resources).getD [], kv.2.resType ≠ "AWS::S3::Bucket") →
        mergeStack m stack = m := by
  have hp : hasAdditionalStacksPlugin (additionalStacksService (setKey rm k r) sname k r')
      = true := rfl
  simp only [additionalStacksService] at hp
  have hm : mergedResources (additionalStacksService (setKey rm k r) sname k r')
      = setKey rm k r' := by
    simp [mergedResources, additionalStacksService, hp, getAdditionalStacks,
          mergeStack, hb, setKey_setKey]
  refine ⟨hm, ?_, ?_, fun m stack hns => mergeStack_no_buckets m stack hns⟩
  · simp [bucketsRun, hm]
  · rw [hm]
    exact lookupKey_setKey rm k r'

/-- C3 witness: with primary key K a bucket named old and a secondary
stack redeclaring K as a bucket named new, the resolved list is the
secondary's name and the primary's name is gone. -/
theorem C3_secondary_stack_wins_witness :
    (bucketsRun (additionalStacksService (setKey [] "K" (bucketResource "old"))
        "stackA" "K" (bucketResource "new"))).1 = ["new"] := by
  have h := C3_secondary_stack_wins [] "stackA" "K"
    (bucketResource "old") (bucketResource "new") rfl
  rw [h.2.1]
  decide

/-- Every event `createBuckets` emits is the client construction against
its endpoint or a `createBucket` call against its endpoint for a listed
name. -/
theorem mem_createBuckets_events (env : Env) (port : Nat) (bs : List String)
    (e : Event) (h : e ∈ (createBuckets env port bs).1) :
    e = Event.constructClient (endpointFor port)
      ∨ ∃ b ∈ bs, e = Event.createBucket (endpointFor port) b := by
  unfold createBuckets at h
  by_cases hbs : bs.isEmpty
  · simp [hbs] at h
  · simp only [hbs, Bool.false_eq_true, if_false] at h
    cases hf : bs.find? (fun b => (env.createResult b).isSome) with
    | some b =>
      simp only [hf] at h
      rcases List.mem_cons.mp h with h1 | h2
      · exact Or.inl h1
      · rcases List.mem_map.mp h2 with ⟨b', hb', rfl⟩
        exact Or.inr ⟨b', hb', rfl⟩
    | none =>
      simp only [hf] at h
      rcases List.mem_cons.mp h with h1 | h2
      · exact Or.inl h1
      · rcases List.mem_map.mp h2 with ⟨b', hb', rfl⟩
        exact Or.inr ⟨b', hb', rfl⟩

/-- A client construction event of `createBuckets` always carries the
endpoint built from its port argument. -/
theorem constructClient_mem_createBuckets (env : Env) (port : Nat) (bs : List String)
    (ep : String) (h : Event.constructClient ep ∈ (createBuckets env port bs).1) :
    ep = endpointFor port := by
  rcases mem_createBuckets_events env port bs _ h with h1 | ⟨b, _, h2⟩
  · injection h1
  · injection h2

/-- The settlement of `createBuckets` is fulfilment exactly when every
listed bucket's creation call fulfils. -/
theorem createBuckets_resolved_iff (env : Env) (port : Nat) (bs : List String) :
    (createBuckets env port bs).2 = Outcome.resolved
      ↔ ∀ b ∈ bs, env.createResult b = none := by
  cases bs with
  | nil => simp [createBuckets]
  | cons b rest =>
    unfold createBuckets
    simp only [List.isEmpty_cons, Bool.false_eq_true, if_false]
    cases hf : (b :: rest).find? (fun x => (env.createResult x).isSome) with
    | some x =>
      have hx := List.find?_some hf
      have hxm := List.mem_of_find?_eq_some hf
      simp only [hf]
      constructor
      · intro hcon; exact absurd hcon (by simp)
      · intro hall
        rw [hall x hxm] at hx
        simp at hx
    | none =>
      simp only [hf]
      rw [List.find?_eq_none] at hf
      have hall : ∀ x ∈ b :: rest, env.createResult x = none := by
        intro x hx
        have hnx := hf x hx
        cases hc : env.createResult x with
        | none => rfl
        | some e => rw [hc] at hnx; simp at hnx
      exact ⟨fun _ => hall, fun _ => trivial⟩

/-- An environment whose emulator start fails and whose creation calls
all fulfil. -/
def envFail : Env :=
  { runResult := RunOutcome.fails "bind error",
    createResult := fun _ => none,
    realpath := fun p => p }

/-- An environment whose emulator binds the requested default port and
whose creation calls all fulfil. -/
def envOk : Env :=
  { runResult := RunOutcome.binds "localhost" 4569,
    createResult := fun _ => none,
    realpath := fun p => p }

/-- A service with no resources, plugins or custom block entries. -/
def serviceEmpty : Service :=
  { resources := none, plugins := none,
    custom := { s3 := none, additionalStacks := none } }

/-- C4: when the merged options do not set noStart and the emulator's
startup reports an error, the start promise rejects with that error and
no storage client is constructed and no create-bucket call is issued. -/
theorem C4_startup_error_atomic (env : Env) (o : S3Config) (s : Service) (err : String)
    (hfail : env.runResult = RunOutcome.fails err)
    (hns : jsTruthy (mergedConfigOf o s).noStart = false) :
    (startHandler env o s).outcome = Outcome.rejected err
    ∧ (∀ ep b, Event.createBucket ep b ∉ (startHandler env o s).events)
    ∧ (∀ ep, Event.constructClient ep ∉ (startHandler env o s).events) := by
  unfold startHandler
  simp [hns, hfail]

/-- C4 witness: the failing startup at a concrete environment. -/
theorem C4_startup_error_atomic_witness :
    (startHandler envFail S3Config.empty serviceEmpty).outcome
      = Outcome.rejected "bind error" :=
  (C4_startup_error_atomic envFail S3Config.empty serviceEmpty "bind error" rfl rfl).1

/-- C5: with an empty bucket list the creation step issues no calls,
constructs no client, and resolves; for every list it resolves exactly
when every per-bucket call fulfils (join semantics); and when the
emulator binds, the start promise resolves exactly when every listed
bucket's creation call fulfils. -/
theorem C5_create_join_semantics (env : Env) (port : Nat) :
    createBuckets env port [] = ([], Outcome.resolved)
    ∧ (∀ bs, ((createBuckets env port bs).2 = Outcome.resolved
        ↔ ∀ b ∈ bs, env.createResult b = none))
    ∧ (∀ (h : String) (p : Nat) (o : S3Config) (s : Service),
        env.runResult = RunOutcome.binds h p →
        ((startHandler env o s).outcome = Outcome.resolved
          ↔ ∀ b ∈ resolvedBucketList o s, env.createResult b = none)) := by
  refine ⟨rfl, fun bs => createBuckets_resolved_iff env port bs, ?_⟩
  intro h p o s hbind
  unfold startHandler
  by_cases hns : jsTruthy (mergedConfigOf o s).noStart = true
  · simp only [hns, if_true]
    exact createBuckets_resolved_iff env _ _
  · rw [Bool.not_eq_true] at hns
    simp only [hns, Bool.false_eq_true, if_false, hbind]
    exact createBuckets_resolved_iff env _ _

/-- C5 witness: the join semantics at a concrete environment where every
creation call fulfils. -/
theorem C5_create_join_semantics_witness :
    createBuckets envOk 4569 [] = ([], Outcome.resolved)
    ∧ (createBuckets envOk 4569 ["alpha"]).2 = Outcome.resolved := by
  refine ⟨(C5_create_join_semantics envOk 4569).1, ?_⟩
  exact ((C5_create_join_semantics envOk 4569).2.1 ["alpha"]).mpr (fun b hb => rfl)

/-- Run options setting a non-default host, noStart, and one bucket. -/
def hostOptions : S3Config :=
  { S3Config.empty with
    host := some "myhost"
    noStart := some true
    buckets := some ["b1"] }

/-- C6 counterexample: with the merged hostname resolving to myhost, the
storage client is still constructed against the literal localhost
endpoint, not the configured hostname. -/
theorem C6_counterexample :
    jsOrStr (mergedConfigOf hostOptions serviceEmpty).host "localhost" = "myhost"
    ∧ (startHandler envOk hostOptions serviceEmpty).events
      = [Event.constructClient "http://localhost:4569",
         Event.createBucket "http://localhost:4569" "b1"]
    ∧ Event.constructClient "http://myhost:4569"
        ∉ (startHandler envOk hostOptions serviceEmpty).events := by
  decide

/-- C6 (amended): the bucket-creation client is always constructed
against the path-style endpoint of the literal hostname localhost,
regardless of the configured hostname; the port in the endpoint is the
configured port (default 4569) in the no-start path and the actual bound
port in the spawned path. -/
theorem C6_amended_endpoint_localhost (env : Env) (o : S3Config) (s : Service) :
    (jsTruthy (mergedConfigOf o s).noStart = true →
      ∀ ep, Event.constructClient ep ∈ (startHandler env o s).events →
        ep = endpointFor (jsOrNat (mergedConfigOf o s).port 4569))
    ∧ (∀ h p, env.runResult = RunOutcome.binds h p →
        jsTruthy (mergedConfigOf o s).noStart = false →
        ∀ ep, Event.constructClient ep ∈ (startHandler env o s).events →
          ep = endpointFor p)
    ∧ (∀ ep, Event.constructClient ep ∈ (startHandler env o s).events →
        ∃ pt : Nat, ep = "http://localhost:" ++ toString pt) := by
  have hno : jsTruthy (mergedConfigOf o s).noStart = true →
      ∀ ep, Event.constructClient ep ∈ (startHandler env o s).events →
        ep = endpointFor (jsOrNat (mergedConfigOf o s).port 4569) := by
    intro hns ep hep
    unfold startHandler at hep
    simp only [hns, if_true] at hep
    exact constructClient_mem_createBuckets env _ _ ep hep
  have hyes : ∀ h p, env.runResult = RunOutcome.binds h p →
      jsTruthy (mergedConfigOf o s).noStart = false →
      ∀ ep, Event.constructClient ep ∈ (startHandler env o s).events →
        ep = endpointFor p := by
    intro h p hbind hns ep hep
    unfold startHandler at hep
    simp only [hns, Bool.false_eq_true, if_false, hbind, List.mem_append,
      List.mem_cons, List.mem_singleton] at hep
    rcases hep with (h1 | h2 | h3) | h4
    · injection h1
    · injection h2
    · exact absurd h3 (by simp)
    · exact constructClient_mem_createBuckets env _ _ ep h4
  refine ⟨hno, hyes, ?_⟩
  intro ep hep
  by_cases hns : jsTruthy (mergedConfigOf o s).noStart = true
  · exact ⟨_, hno hns ep hep⟩
  · rw [Bool.not_eq_true] at hns
    cases hr : env.runResult with
    | fails err =>
      unfold startHandler at hep
      simp [hns, hr] at hep
    | binds hh pp =>
      exact ⟨pp, hyes hh pp hr hns ep hep⟩

/-- C6 witness: the amended endpoint fact at the concrete no-start
configuration. -/
theorem C6_amended_endpoint_localhost_witness :
    "http://localhost:4569"
      = endpointFor (jsOrNat (mergedConfigOf hostOptions serviceEmpty).port 4569) := by
  have h := (C6_amended_endpoint_localhost envOk hostOptions serviceEmpty).1
  exact h rfl "http://localhost:4569" (by decide)

/-- A service config block that only sets noStart. -/
def configNoStart : S3Config := { S3Config.empty with noStart := some true }

/-- A service whose custom-s3 block sets noStart and nothing else. -/
def serviceConfigNoStart : Service :=
  { resources := none, plugins := none,
    custom := { s3 := some configNoStart, additionalStacks := none } }

/-- C7: with noStart supplied only through the declarative service
config and empty run options, start takes the no-start path (making no
external calls here since no buckets are listed) and leaves the handle
null, yet stop reads only the run options' noStart flag and therefore
dereferences the null handle: a thrown TypeError instead of the claimed
error-free no-op. -/
theorem C7_stop_throws_on_config_noStart :
    jsTruthy (mergedConfigOf S3Config.empty serviceConfigNoStart).noStart = true
    ∧ (startHandler envOk S3Config.empty serviceConfigNoStart).events = []
    ∧ (startHandler envOk S3Config.empty serviceConfigNoStart).client = none
    ∧ endHandler S3Config.empty
        (startHandler envOk S3Config.empty serviceConfigNoStart).client
      = Except.error "TypeError: this.client is null" :=
  ⟨rfl, rfl, rfl, rfl⟩

/-- Run options setting noStart and one explicit bucket. -/
def noStartOptions : S3Config :=
  { S3Config.empty with
    noStart := some true
    buckets := some ["alpha"] }

/-- C8: when the merged noStart flag is set, start spawns no emulator and
touches no storage directory, the handle stays null, and with a
non-empty resolved bucket list the only external calls are one client
construction against the configured port (default 4569) and exactly one
create-bucket call per listed bucket, counted with multiplicity. -/
theorem C8_noStart_creates_only (env : Env) (o : S3Config) (s : Service)
    (hns : jsTruthy (mergedConfigOf o s).noStart = true) :
    (startHandler env o s).events
      = (createBuckets env (jsOrNat (mergedConfigOf o s).port 4569)
          (resolvedBucketList o s)).1
    ∧ (resolvedBucketList o s ≠ [] →
        (startHandler env o s).events
          = Event.constructClient (endpointFor (jsOrNat (mergedConfigOf o s).port 4569))
              :: (resolvedBucketList o s).map
                (fun b =>
                  Event.createBucket
                    (endpointFor (jsOrNat (mergedConfigOf o s).port 4569)) b))
    ∧ (∀ p h c d, Event.spawnServer p h c d ∉ (startHandler env o s).events)
    ∧ (∀ pth, Event.ensureDir pth ∉ (startHandler env o s).events)
    ∧ (startHandler env o s).client = none
    ∧ (∀ b, ((startHandler env o s).events.count
          (Event.createBucket
            (endpointFor (jsOrNat (mergedConfigOf o s).port 4569)) b))
        = (resolvedBucketList o s).count b) := by
  have hev : (startHandler env o s).events
      = (createBuckets env (jsOrNat (mergedConfigOf o s).port 4569)
          (resolvedBucketList o s)).1 := by
    unfold startHandler
    simp [hns]
  have hcl : (startHandler env o s).client = none := by
    unfold startHandler
    simp [hns]
  refine ⟨hev, ?_, ?_, ?_, hcl, ?_⟩
  · intro hne
    rw [hev]
    unfold createBuckets
    rw [if_neg (by simpa using hne)]
    cases hf : (resolvedBucketList o s).find?
        (fun b => (env.createResult b).isSome) <;> simp [hf]
  · intro p h c d hmem
    rw [hev] at hmem
    rcases mem_createBuckets_events env _ _ _ hmem with h1 | ⟨b, _, h2⟩
    · injection h1
    · injection h2
  · intro pth hmem
    rw [hev] at hmem
    rcases mem_createBuckets_events env _ _ _ hmem with h1 | ⟨b, _, h2⟩
    · injection h1
    · injection h2
  · intro b
    rw [hev]
    unfold createBuckets
    by_cases hbs : (resolvedBucketList o s).isEmpty
    · rw [if_pos hbs]
      rw [List.isEmpty_iff] at hbs
      simp [hbs]
    · rw [if_neg hbs]
      have hcount : ∀ (l : List Event),
          l = (resolvedBucketList o s).map
              (fun x =>
                Event.createBucket
                  (endpointFor (jsOrNat (mergedConfigOf o s).port 4569)) x) →
          (Event.constructClient
              (endpointFor (jsOrNat (mergedConfigOf o s).port 4569)) :: l).count
            (Event.createBucket
              (endpointFor (jsOrNat (mergedConfigOf o s).port 4569)) b)
          = (resolvedBucketList o s).count b := by
        intro l hl
        rw [List.count_cons_of_ne (by simp), hl]
        exact List.count_map_of_injective _ _ (fun x y hxy => by injection hxy) b
      cases hf : (resolvedBucketList o s).find?
          (fun x => (env.createResult x).isSome) <;>
        simp only [hf] <;> exact hcount _ rfl

/-- C8 witness: the no-start path at a concrete one-bucket option set. -/
theorem C8_noStart_creates_only_witness :
    (startHandler envOk noStartOptions serviceEmpty).events
      = [Event.constructClient (endpointFor 4569),
         Event.createBucket (endpointFor 4569) "alpha"]
    ∧ (startHandler envOk noStartOptions serviceEmpty).client = none := by
  have h := C8_noStart_creates_only envOk noStartOptions serviceEmpty rfl
  refine ⟨?_, h.2.2.2.2.1⟩
  have h2 := h.2.1 (by decide)
  rw [h2]
  decide

/-- C9 counterexample: with a failing emulator startup, start rejects and
yet the handle is non-null, because line 78 assigns `this.client` from
the spawn synchronously, before the callback reports; so a non-null
handle does not certify a successfully completed start. -/
theorem C9_counterexample :
    (startHandler envFail S3Config.empty serviceEmpty).outcome
      = Outcome.rejected "bind error"
    ∧ ((startHandler envFail S3Config.empty serviceEmpty).client).isSome = true :=
  ⟨rfl, rfl⟩

/-- C9 (amended): the handle is non-null exactly when the start
invocation took the spawn path (merged noStart not truthy), regardless
of whether startup then succeeded or failed: it is assigned when the
spawn is initiated and retained even when startup reports an error. -/
theorem C9_amended_client_iff_spawn (env : Env) (o : S3Config) (s : Service) :
    ((startHandler env o s).client).isSome
      = ! jsTruthy (mergedConfigOf o s).noStart
    ∧ (jsTruthy (mergedConfigOf o s).noStart = false →
        ∀ err, env.runResult = RunOutcome.fails err →
          ((startHandler env o s).client).isSome = true
          ∧ (startHandler env o s).outcome = Outcome.rejected err) := by
  constructor
  · unfold startHandler
    by_cases hns : jsTruthy (mergedConfigOf o s).noStart = true
    · simp [hns]
    · rw [Bool.not_eq_true] at hns
      cases hr : env.runResult <;> simp [hns, hr]
  · intro hns err hfail
    unfold startHandler
    simp [hns, hfail]

/-- C9 witness: the amended handle fact at the concrete failing
environment. -/
theorem C9_amended_client_iff_spawn_witness :
    ((startHandler envFail S3Config.empty serviceEmpty).client).isSome = true
    ∧ (startHandler envFail S3Config.empty serviceEmpty).outcome
      = Outcome.rejected "bind error" :=
  (C9_amended_client_iff_spawn envFail S3Config.empty serviceEmpty).2 rfl "bind error" rfl

/-- A service with an empty primary resources object, the
additional-stacks plugin, and a secondary stack declaring one bucket. -/
def serviceWithSecondary : Service :=
  { resources := some [],
    plugins := some ["serverless-plugin-additional-stacks"],
    custom := { s3 := none,
                additionalStacks :=
                  some [("stack1", { Resources := some [("K", bucketResource "sec")] })] } }

/-- C10 counterexample: resolving buckets with a secondary-stack bucket
writes that entry into the primary template's resource mapping: the
service's resources object changes from the empty map to one carrying
the secondary entry. -/
theorem C10_counterexample :
    (bucketsRun serviceWithSecondary).2.resources ≠ serviceWithSecondary.resources
    ∧ (bucketsRun serviceWithSecondary).2.resources
      = some [("K", bucketResource "sec")]
    ∧ (bucketsRun serviceWithSecondary).1 = ["sec"] := by
  decide

/-- C10 (amended): the buckets operation mutates the service in place:
when the service carries a resources object its post-state resource
mapping is the merged mapping (with every secondary bucket entry
inserted); the service is left unchanged exactly in the cases where no
actual resources object exists or the additional-stacks plugin is
absent. -/
theorem C10_amended_buckets_mutates (s : Service) :
    (hasAdditionalStacksPlugin s = false → (bucketsRun s).2 = s)
    ∧ (s.resources = none → (bucketsRun s).2 = s)
    ∧ (∀ rm, s.resources = some rm →
        (bucketsRun s).2.resources = some (mergedResources s)) := by
  obtain ⟨res, plugins, custom⟩ := s
  refine ⟨?_, ?_, ?_⟩
  · intro hp
    cases res with
    | none => rfl
    | some rm => simp [bucketsRun, mergedResources, hp]
  · intro hres
    subst hres
    rfl
  · intro rm hres
    subst hres
    simp [bucketsRun]

/-- C10 witness: the mutation facts at the concrete secondary-stack
service and at the empty service. -/
theorem C10_amended_buckets_mutates_witness :
    (bucketsRun serviceEmpty).2 = serviceEmpty
    ∧ (bucketsRun serviceWithSecondary).2.resources
      = some (mergedResources serviceWithSecondary) :=
  ⟨(C10_amended_buckets_mutates serviceEmpty).1 rfl,
   (C10_amended_buckets_mutates serviceWithSecondary).2.2 [] rfl⟩

end S3Local
